import Mathlib

/-!
Verification of the decompiled PIC16F1704 APW12 firmware skeleton
(`PIC16F1704_APW12_1.2_V71_skeleton.c`).

The program state is the memory-mapped register file of the device: the
three registers that the source ever names (`OSCCON`, `ANSELA`, `ANSELC`)
plus an abstract map `mem` for every other data location.  The ten stub
functions have empty bodies in the source, so each is the identity on
states.  `main` performs three register writes in source order and then
enters `while(1) { }`; we embed it as a small-step machine over program
counters `init0` (before `OSCCON = 0x70`), `init1` (before `ANSELA = 0x00`),
`init2` (before `ANSELC = 0x00`), `loop` (inside `while(1)`), and `done`
(the would-be return from `main`, which the control flow never reaches).
-/

/-- The observable machine state: the three registers written by the source
plus all remaining data memory, modelled as a map from addresses. -/
structure State where
  OSCCON : Nat
  ANSELA : Nat
  ANSELC : Nat
  mem : Nat → Nat

/-- `func_0674` at 0x0674 (called 8 times, 392 instructions): empty body. -/
def func_0674 (s : State) : State := s

/-- `func_0193` at 0x0193 (called 6 times, 1003 instructions): empty body. -/
def func_0193 (s : State) : State := s

/-- `func_0124` at 0x0124 (called 5 times, 2083 instructions): empty body. -/
def func_0124 (s : State) : State := s

/-- `func_0380` at 0x0380 (called 4 times, 531 instructions): empty body. -/
def func_0380 (s : State) : State := s

/-- `func_05EE` at 0x05EE (called 4 times, 31 instructions): empty body. -/
def func_05EE (s : State) : State := s

/-- `func_0264` at 0x0264 (called 3 times, 761 instructions): empty body. -/
def func_0264 (s : State) : State := s

/-- `func_0151` at 0x0151 (called 3 times, 2148 instructions): empty body. -/
def func_0151 (s : State) : State := s

/-- `func_01CA` at 0x01CA (called 2 times, 1992 instructions): empty body. -/
def func_01CA (s : State) : State := s

/-- `func_0746` at 0x0746 (called 2 times, 574 instructions): empty body. -/
def func_0746 (s : State) : State := s

/-- `func_0118` at 0x0118 (called 2 times, 2087 instructions): empty body. -/
def func_0118 (s : State) : State := s

/-- Identifiers for the ten stub functions of the source file. -/
inductive FuncId where
  | f0674 | f0193 | f0124 | f0380 | f05EE
  | f0264 | f0151 | f01CA | f0746 | f0118
deriving DecidableEq

/-- Dispatch a stub identifier to the embedded function it names. -/
def stubApply : FuncId → State → State
  | FuncId.f0674 => func_0674
  | FuncId.f0193 => func_0193
  | FuncId.f0124 => func_0124
  | FuncId.f0380 => func_0380
  | FuncId.f05EE => func_05EE
  | FuncId.f0264 => func_0264
  | FuncId.f0151 => func_0151
  | FuncId.f01CA => func_01CA
  | FuncId.f0746 => func_0746
  | FuncId.f0118 => func_0118

/-- Callees appearing in the body of each stub function.  Every body in the
source is empty, so every list is empty. -/
def calls : FuncId → List FuncId := fun _ => []

/-- Callees appearing in the body of `main` in the source: the body consists
of three register-assignment statements and `while(1) { }` only. -/
def mainCallees : List FuncId := []

/-- Program counter of the embedded `main`: one point before each of the
three register writes, the `while(1)` loop head, and the (unreachable)
return point of `main`. -/
inductive PC where
  | init0 | init1 | init2 | loop | done
deriving DecidableEq

/-- A machine configuration: program counter plus state. -/
structure Config where
  pc : PC
  st : State

/-- One step of `main`, parametrised by an implementation `env` of the ten
stub functions.  The body of `main` contains no call statement, so `env` is
never applied.  From `done` (never reached) we idle, keeping the step
function total. -/
def stepEnv (_env : FuncId → State → State) : Config → Config
  | ⟨PC.init0, s⟩ => ⟨PC.init1, { s with OSCCON := 0x70 }⟩
  | ⟨PC.init1, s⟩ => ⟨PC.init2, { s with ANSELA := 0x00 }⟩
  | ⟨PC.init2, s⟩ => ⟨PC.loop, { s with ANSELC := 0x00 }⟩
  | ⟨PC.loop, s⟩ => ⟨PC.loop, s⟩
  | ⟨PC.done, s⟩ => ⟨PC.done, s⟩

/-- One step of `main` under the actual stub implementations. -/
def step : Config → Config := stepEnv stubApply

/-- Run the machine for `n` steps. -/
def run : Nat → Config → Config
  | 0, c => c
  | n + 1, c => run n (step c)

/-- The cumulative effect of the three assignments at the top of `main`,
in source order: `OSCCON = 0x70; ANSELA = 0x00; ANSELC = 0x00;`. -/
def mainInit (s : State) : State :=
  let s1 : State := { s with OSCCON := 0x70 }
  let s2 : State := { s1 with ANSELA := 0x00 }
  { s2 with ANSELC := 0x00 }

/-- A configuration is terminated when control has returned from `main`. -/
def Terminated (c : Config) : Prop := c.pc = PC.done

/-- The small-step transition relation of `main`, the relational counterpart
of `step`.  `done` has no outgoing transition: a return from `main` would
halt the machine. -/
inductive StepR : Config → Config → Prop where
  | init0 (s : State) : StepR ⟨PC.init0, s⟩ ⟨PC.init1, { s with OSCCON := 0x70 }⟩
  | init1 (s : State) : StepR ⟨PC.init1, s⟩ ⟨PC.init2, { s with ANSELA := 0x00 }⟩
  | init2 (s : State) : StepR ⟨PC.init2, s⟩ ⟨PC.loop, { s with ANSELC := 0x00 }⟩
  | loop (s : State) : StepR ⟨PC.loop, s⟩ ⟨PC.loop, s⟩

/-- `n`-step run relation built from `StepR`. -/
inductive RunR : Nat → Config → Config → Prop where
  | zero (c : Config) : RunR 0 c c
  | succ {n : Nat} {c c1 c2 : Config} :
      StepR c c1 → RunR n c1 c2 → RunR (n + 1) c c2

/-- Except-valued embedding of a stub call: an empty body cannot fail. -/
def stubApplyE (f : FuncId) (s : State) : Except String State :=
  pure (stubApply f s)

/-- Except-valued embedding of the three assignments at the top of `main`:
plain stores into the register file, none of which can fail. -/
def mainInitE (s : State) : Except String State :=
  (pure { s with OSCCON := 0x70 } : Except String State) >>= fun s1 =>
  (pure { s1 with ANSELA := 0x00 } : Except String State) >>= fun s2 =>
  pure { s2 with ANSELC := 0x00 }

/-- A concrete all-zero state, used to instantiate universally quantified
theorems at a specific input. -/
def s0 : State := ⟨0, 0, 0, fun _ => 0⟩

-- Helper lemmas about the run function.

lemma run_loop (t : State) : ∀ k, run k ⟨PC.loop, t⟩ = ⟨PC.loop, t⟩ := by
  intro k
  induction k with
  | zero => rfl
  | succ n ih => simpa [run, step, stepEnv] using ih

lemma run_init_add3 (s : State) (n : Nat) :
    run (n + 3) ⟨PC.init0, s⟩ = ⟨PC.loop, mainInit s⟩ := by
  show run (n + 1 + 1 + 1) ⟨PC.init0, s⟩ = ⟨PC.loop, mainInit s⟩
  simp only [run, step, stepEnv]
  exact run_loop _ n

lemma run_init3 (s : State) :
    run 3 ⟨PC.init0, s⟩ = ⟨PC.loop, mainInit s⟩ :=
  run_init_add3 s 0

/-- `true` iff an Except-valued computation returned a success value. -/
def okB : Except String State → Bool
  | Except.ok _ => true
  | Except.error _ => false

lemma stubApply_id (f : FuncId) (s : State) : stubApply f s = s := by
  cases f <;> rfl

lemma stepR_det {c c1 c2 : Config} (h1 : StepR c c1) (h2 : StepR c c2) :
    c1 = c2 := by
  cases h1 <;> cases h2 <;> rfl

-- Claim theorems.

/-- C1: `main` writes `OSCCON := 0x70`, then `ANSELA := 0x00`, then
`ANSELC := 0x00`, in that order, and all three writes happen before the
`while(1)` loop is first reached. -/
theorem C1_startup_writes_ordered_before_loop (s : State) :
    ((run 1 ⟨PC.init0, s⟩).st.OSCCON = 0x70 ∧
     (run 1 ⟨PC.init0, s⟩).st.ANSELA = s.ANSELA ∧
     (run 1 ⟨PC.init0, s⟩).st.ANSELC = s.ANSELC) ∧
    ((run 2 ⟨PC.init0, s⟩).st.OSCCON = 0x70 ∧
     (run 2 ⟨PC.init0, s⟩).st.ANSELA = 0x00 ∧
     (run 2 ⟨PC.init0, s⟩).st.ANSELC = s.ANSELC) ∧
    ((run 3 ⟨PC.init0, s⟩).st.OSCCON = 0x70 ∧
     (run 3 ⟨PC.init0, s⟩).st.ANSELA = 0x00 ∧
     (run 3 ⟨PC.init0, s⟩).st.ANSELC = 0x00 ∧
     (run 3 ⟨PC.init0, s⟩).pc = PC.loop) ∧
    (∀ n, (run n ⟨PC.init0, s⟩).pc = PC.loop → 3 ≤ n) := by
  refine ⟨⟨rfl, rfl, rfl⟩, ⟨rfl, rfl, rfl⟩, ⟨rfl, rfl, rfl, rfl⟩, ?_⟩
  intro n h
  match n with
  | 0 => simp [run] at h
  | 1 => simp [run, step, stepEnv] at h
  | 2 => simp [run, step, stepEnv] at h
  | n + 3 => omega

/-- Witness for C1 at the all-zero state and step count 5. -/
theorem C1_startup_writes_ordered_before_loop_witness :
    (run 5 ⟨PC.init0, s0⟩).pc = PC.loop ∧ 3 ≤ 5 :=
  ⟨rfl, (C1_startup_writes_ordered_before_loop s0).2.2.2 5 rfl⟩

/-- C2: each of the ten stub functions returns its input state unchanged:
every register and every memory location is preserved. -/
theorem C2_stubs_are_noops (s : State) :
    func_0674 s = s ∧ func_0193 s = s ∧ func_0124 s = s ∧ func_0380 s = s ∧
    func_05EE s = s ∧ func_0264 s = s ∧ func_0151 s = s ∧ func_01CA s = s ∧
    func_0746 s = s ∧ func_0118 s = s :=
  ⟨rfl, rfl, rfl, rfl, rfl, rfl, rfl, rfl, rfl, rfl⟩

/-- C3: from any initial state, no number of steps of `main` reaches the
return point `done`; moreover every reachable configuration has a successor
under the transition relation, so execution never terminates. -/
theorem C3_main_never_terminates (s : State) (n : Nat) :
    ¬ Terminated (run n ⟨PC.init0, s⟩) ∧
    ∃ c', StepR (run n ⟨PC.init0, s⟩) c' := by
  match n with
  | 0 => exact ⟨by simp [Terminated, run], ⟨_, StepR.init0 s⟩⟩
  | 1 => exact ⟨by simp [Terminated, run, step, stepEnv], ⟨_, StepR.init1 _⟩⟩
  | 2 => exact ⟨by simp [Terminated, run, step, stepEnv], ⟨_, StepR.init2 _⟩⟩
  | n + 3 =>
    rw [run_init_add3]
    exact ⟨by simp [Terminated], ⟨_, StepR.loop _⟩⟩

/-- Witness for C3 at the all-zero state and step count 4. -/
theorem C3_main_never_terminates_witness :
    ¬ Terminated (run 4 ⟨PC.init0, s0⟩) :=
  (C3_main_never_terminates s0 4).1

/-- C4: along every run of `main`, data memory outside the three named
registers is never written, the state is always one of the four produced by
the startup writes, and no stub function writes anything at all. -/
theorem C4_only_startup_register_writes (s : State) (n : Nat) :
    (run n ⟨PC.init0, s⟩).st.mem = s.mem ∧
    ((run n ⟨PC.init0, s⟩).st = s ∨
     (run n ⟨PC.init0, s⟩).st = { s with OSCCON := 0x70 } ∨
     (run n ⟨PC.init0, s⟩).st = { s with OSCCON := 0x70, ANSELA := 0x00 } ∨
     (run n ⟨PC.init0, s⟩).st = mainInit s) ∧
    (∀ (f : FuncId) (t : State), stubApply f t = t) := by
  match n with
  | 0 => exact ⟨rfl, Or.inl rfl, stubApply_id⟩
  | 1 => exact ⟨rfl, Or.inr (Or.inl rfl), stubApply_id⟩
  | 2 => exact ⟨rfl, Or.inr (Or.inr (Or.inl rfl)), stubApply_id⟩
  | n + 3 =>
    rw [run_init_add3]
    exact ⟨rfl, Or.inr (Or.inr (Or.inr rfl)), stubApply_id⟩

/-- C5: after the three startup writes the configuration is a fixed point of
the step function: every later configuration equals the one reached at step
3, and the register values `OSCCON = 0x70`, `ANSELA = 0x00`, `ANSELC = 0x00`
hold in every subsequently reachable state. -/
theorem C5_post_init_fixed_point (s : State) (n : Nat) :
    run (n + 3) ⟨PC.init0, s⟩ = run 3 ⟨PC.init0, s⟩ ∧
    (run (n + 3) ⟨PC.init0, s⟩).st.OSCCON = 0x70 ∧
    (run (n + 3) ⟨PC.init0, s⟩).st.ANSELA = 0x00 ∧
    (run (n + 3) ⟨PC.init0, s⟩).st.ANSELC = 0x00 ∧
    (∀ t, step ⟨PC.loop, t⟩ = ⟨PC.loop, t⟩) := by
  rw [run_init_add3, run_init3]
  exact ⟨rfl, rfl, rfl, rfl, fun t => rfl⟩

/-- C6: every call list in the source is empty — no function calls any of
the ten stubs and no stub calls anything — and the step function of `main`
does not depend on the stub implementations at all. -/
theorem C6_stubs_disconnected :
    (∀ f, calls f = []) ∧ mainCallees = [] ∧
    (∀ env1 env2 : FuncId → State → State, ∀ c : Config,
       stepEnv env1 c = stepEnv env2 c) := by
  refine ⟨fun f => rfl, rfl, fun env1 env2 c => ?_⟩
  cases c with
  | mk pc st => cases pc <;> rfl

/-- C7: embedded as Except-valued computations, the initialization of `main`
and every stub call always return a success value. -/
theorem C7_no_operation_fails (s : State) :
    mainInitE s = Except.ok (mainInit s) ∧
    okB (mainInitE s) = true ∧
    (∀ f : FuncId, stubApplyE f s = Except.ok (stubApply f s) ∧
       okB (stubApplyE f s) = true) :=
  ⟨rfl, rfl, fun _ => ⟨rfl, rfl⟩⟩

/-- C8: the transition relation of `main` is deterministic, `n`-step runs
from equal configurations end in equal configurations, and each stub
function is deterministic on states. -/
theorem C8_execution_deterministic :
    (∀ c c1 c2 : Config, StepR c c1 → StepR c c2 → c1 = c2) ∧
    (∀ (n : Nat) (c c1 c2 : Config), RunR n c c1 → RunR n c c2 → c1 = c2) ∧
    (∀ (f : FuncId) (s t1 t2 : State),
       stubApply f s = t1 → stubApply f s = t2 → t1 = t2) := by
  refine ⟨fun c c1 c2 h1 h2 => stepR_det h1 h2, ?_, ?_⟩
  · intro n
    induction n with
    | zero =>
      intro c c1 c2 h1 h2
      cases h1; cases h2; rfl
    | succ m ih =>
      intro c c1 c2 h1 h2
      cases h1 with
      | succ hs1 hr1 =>
        cases h2 with
        | succ hs2 hr2 =>
          have he := stepR_det hs1 hs2
          subst he
          exact ih _ _ _ hr1 hr2
  · intro f s t1 t2 h1 h2
    rw [← h1, ← h2]

/-- Witness for C8: both the one-step run relation and a stub call applied
at the loop head with the all-zero state. -/
theorem C8_execution_deterministic_witness :
    ((⟨PC.loop, s0⟩ : Config) = ⟨PC.loop, s0⟩ ∧
     (⟨PC.loop, s0⟩ : Config) = ⟨PC.loop, s0⟩) ∧
    stubApply FuncId.f0674 s0 = stubApply FuncId.f0674 s0 :=
  ⟨⟨C8_execution_deterministic.1 ⟨PC.loop, s0⟩ ⟨PC.loop, s0⟩ ⟨PC.loop, s0⟩
      (StepR.loop s0) (StepR.loop s0),
    C8_execution_deterministic.2.1 1 ⟨PC.loop, s0⟩ ⟨PC.loop, s0⟩ ⟨PC.loop, s0⟩
      (RunR.succ (StepR.loop s0) (RunR.zero _))
      (RunR.succ (StepR.loop s0) (RunR.zero _))⟩,
   C8_execution_deterministic.2.2 FuncId.f0674 s0 _ _ rfl rfl⟩

/-- C9: every pair of stub functions is idempotent and commutes, and each
equals the identity on states. -/
theorem C9_stubs_idempotent_commute (f g : FuncId) (s : State) :
    stubApply f (stubApply f s) = stubApply f s ∧
    stubApply f (stubApply g s) = stubApply g (stubApply f s) ∧
    stubApply f s = s := by
  simp [stubApply_id]

/-- C10: the values of `OSCCON`, `ANSELA`, `ANSELC` after the startup writes
do not depend on the initial state: any two initial states lead to the same
register values, namely `0x70`, `0x00`, `0x00`. -/
theorem C10_init_values_state_independent (s1 s2 : State) :
    (run 3 ⟨PC.init0, s1⟩).st.OSCCON = (run 3 ⟨PC.init0, s2⟩).st.OSCCON ∧
    (run 3 ⟨PC.init0, s1⟩).st.ANSELA = (run 3 ⟨PC.init0, s2⟩).st.ANSELA ∧
    (run 3 ⟨PC.init0, s1⟩).st.ANSELC = (run 3 ⟨PC.init0, s2⟩).st.ANSELC ∧
    (run 3 ⟨PC.init0, s1⟩).st.OSCCON = 0x70 ∧
    (run 3 ⟨PC.init0, s1⟩).st.ANSELA = 0x00 ∧
    (run 3 ⟨PC.init0, s1⟩).st.ANSELC = 0x00 :=
  ⟨rfl, rfl, rfl, rfl, rfl, rfl⟩
